/-
Verification of the weekly therapy-tracking report pipeline.

This development is a shallow embedding of the report core of the
`socialinteractive` repository: the week resolver, the check-in store
adapter, the week aggregator, the Excel report renderer and the email
dispatcher, as implemented in `enhanced_therapy_backend.py` and
`web_backend.py`.

Conventions of the embedding:
* Calendar dates are integers counting days since 1970-01-01 (the
  proleptic Gregorian calendar, via the standard civil-calendar
  conversion); `pyWeekday` is `datetime.weekday()` (Monday = 0).
* Python `float` statistics are modelled as exact rationals (`Rat`);
  the `"%.1f"` / `"%.2f"` renderings are modelled by exact fixed-point
  rounding (half away from zero on ties; CPython formats the nearest
  binary double, which can differ from the exact rational only on exact
  decimal ties, none of which occur in the statements below).
* The flat-file check-in store (one JSON file per `(patient, date)`,
  opened with mode `'w'`, i.e. truncate/overwrite) is modelled as a
  key-value map `Store`, together with the existence flag of the
  per-patient check-in directory.
* Flask endpoints run under the `@mock_auth` decorator, which fixes the
  requesting therapist to `admin@system`; the therapist email is kept
  as an explicit argument where the code consults it.
* Cell styling (fonts, fills, borders, column widths) is presentation
  only and is not modelled; cell *values* are.
-/
import Mathlib

namespace Therapy

/-! ## Calendar arithmetic

`daysFromCivil`/`civilFromDays` are the standard civil-from-days
conversions (Gregorian, proleptic), with `daysFromCivil 1970 1 1 = 0`.
Python's `datetime` uses exactly this calendar; `datetime(y, m, d)`
is represented by `daysFromCivil y m d`, and `timedelta(days = k)`
by `+ k`. -/

/-- Day count since 1970-01-01 of the civil date `y-m-d`.
Divisions are on nonnegative intermediate quantities (or floor
divisions, which Lean's integer `/` provides for positive divisors). -/
def daysFromCivil (y m d : Int) : Int :=
  let yy := if m ≤ 2 then y - 1 else y
  let era := yy / 400
  let yoe := yy - era * 400
  let mp := (m + 9) % 12
  let doy := (153 * mp + 2) / 5 + d - 1
  let doe := yoe * 365 + yoe / 4 - yoe / 100 + doy
  era * 146097 + doe - 719468

/-- Inverse of `daysFromCivil`: the civil date `(y, m, d)` of a day
count. -/
def civilFromDays (z : Int) : Int × Int × Int :=
  let z' := z + 719468
  let era := z' / 146097
  let doe := z' - era * 146097
  let yoe := (doe - doe / 1460 + doe / 36524 - doe / 146096) / 365
  let y := yoe + era * 400
  let doy := doe - (365 * yoe + yoe / 4 - yoe / 100)
  let mp := (5 * doy + 2) / 153
  let d := doy - (153 * mp + 2) / 5 + 1
  let m := mp + (if mp < 10 then 3 else -9)
  (if m ≤ 2 then y + 1 else y, m, d)

/-- `datetime.weekday()` of a day count: Monday = 0, ..., Sunday = 6.
1970-01-01 was a Thursday (= 3). -/
def pyWeekday (z : Int) : Int := (z + 3) % 7

/-- Decimal digits of a natural number, zero-padded on the left to
width `w` (the `%02d`/`%04d` parts of `strftime('%Y-%m-%d')`). -/
def padNum (w : Nat) (n : Nat) : String :=
  let s := toString n
  String.mk (List.replicate (w - s.length) '0') ++ s

/-- `strftime('%Y-%m-%d')` of a day count. -/
def dateStr (z : Int) : String :=
  let c := civilFromDays z
  padNum 4 c.1.natAbs ++ "-" ++ padNum 2 c.2.1.natAbs ++ "-" ++ padNum 2 c.2.2.natAbs

/-! ## Week-identifier parsing

Both backends parse the week string with
`year, week_num = week.split('-W'); year = int(year); week_num = int(week_num)`.
A split that does not yield exactly two parts, or a part `int()`
rejects, raises `ValueError`, which the surrounding `try` turns into a
generic 500 response.  There is no range check on the week number. -/

/-- Digit-string to `Nat` (`none` on empty or non-digit input). -/
def parseNatDigits (cs : List Char) : Option Nat :=
  if cs ≠ [] ∧ cs.all Char.isDigit then
    some (cs.foldl (fun a c => 10 * a + (c.toNat - 48)) 0)
  else none

/-- Python `int(s)` on a plain decimal literal with an optional sign.
(Python additionally strips whitespace and allows `_` digit
separators; no week string in the claims uses either.) -/
def parseIntPy (s : String) : Option Int :=
  match s.toList with
  | '-' :: rest => (parseNatDigits rest).map (fun n => -(n : Int))
  | '+' :: rest => (parseNatDigits rest).map (fun n => (n : Int))
  | cs => (parseNatDigits cs).map (fun n => (n : Int))

/-- `week.split('-W')` on the character list: scan left to right,
splitting at every (non-overlapping) occurrence of the two-character
separator `-W`; `acc` holds the reversed characters of the current
piece.  (A structural-recursion transcription of Python's
`str.split`.) -/
def splitOnDashW : List Char → List Char → List String
  | [], acc => [String.mk acc.reverse]
  | '-' :: 'W' :: rest, acc => String.mk acc.reverse :: splitOnDashW rest []
  | c :: rest, acc => splitOnDashW rest (c :: acc)

/-- `week.split('-W')` then `int` on both parts — the unpacking
`year, week_num = ...` demands exactly two parts; `none` models the
`ValueError` path. -/
def parseWeek (week : String) : Option (Int × Int) :=
  match splitOnDashW week.toList [] with
  | [a, b] =>
    match parseIntPy a, parseIntPy b with
    | some y, some w => some (y, w)
    | _, _ => none
  | _ => none

/-! ## Week resolution

`enhanced_therapy_backend.py` (both in `get_week_data` and in
`generate_excel_report`):
```
jan_4 = datetime(year, 1, 4)
week_1_monday = jan_4 - timedelta(days=jan_4.weekday())
week_start = week_1_monday + timedelta(weeks=week_num - 1)
```
`web_backend.py` (`get_week_data`):
```
jan1 = datetime(year, 1, 1)
days_to_monday = (7 - jan1.weekday()) % 7
if days_to_monday == 0:
    days_to_monday = 7
first_monday = jan1 + timedelta(days=days_to_monday - 7)
week_start = first_monday + timedelta(weeks=week_num)
```
-/

/-- `datetime(year, 1, 4)` as a day count. -/
def jan4 (y : Int) : Int := daysFromCivil y 1 4

/-- `datetime(year, 1, 1)` as a day count. -/
def jan1 (y : Int) : Int := daysFromCivil y 1 1

/-- `week_1_monday` of the enhanced backend: the Monday of the week
containing January 4th. -/
def week1Monday (y : Int) : Int := jan4 y - pyWeekday (jan4 y)

/-- `week_start` of the enhanced backend. -/
def enhancedWeekStart (y wk : Int) : Int := week1Monday y + 7 * (wk - 1)

/-- The 7 dates of the enhanced backend's resolved week. -/
def enhancedWeekDates (y wk : Int) : List Int :=
  (List.range 7).map (fun i => enhancedWeekStart y wk + i)

/-- `days_to_monday` of the web backend (`days_to_monday` is replaced
by 7 when the `% 7` remainder is 0). -/
def webDaysToMonday (y : Int) : Int :=
  if (7 - pyWeekday (jan1 y)) % 7 = 0 then 7
  else (7 - pyWeekday (jan1 y)) % 7

/-- `first_monday` of the web backend. -/
def webFirstMonday (y : Int) : Int := jan1 y + (webDaysToMonday y - 7)

/-- `week_start` of the web backend (note: `+ week_num` weeks, not
`week_num - 1`). -/
def webWeekStart (y wk : Int) : Int := webFirstMonday y + 7 * wk

/-- The 7 dates of the web backend's resolved week. -/
def webWeekDates (y wk : Int) : List Int :=
  (List.range 7).map (fun i => webWeekStart y wk + i)

/-- The fixed weekday labels attached to the 7 resolved dates. -/
def daysOfWeek : List String :=
  ["Monday", "Tuesday", "Wednesday", "Thursday", "Friday", "Saturday", "Sunday"]

/-! ## Data model -/

/-- One rating entry of a check-in: an integer scale value and a
free-text note (`''` when absent; `data[cat].get('notes', '')` and the
Python truthiness test `if data[cat].get('notes'):` make a missing
note and an empty note indistinguishable). -/
structure RatingEntry where
  value : Int
  notes : String
deriving DecidableEq, Repr

/-- A stored check-in record as the report pipeline reads it:
`{'time': ..., 'emotional': {...}, 'medication': {...},
'activity': {...}}`. -/
structure Checkin where
  time : String
  emotional : RatingEntry
  medication : RatingEntry
  activity : RatingEntry
deriving DecidableEq, Repr

/-- The patient-profile fields the report pipeline reads from
`patient_<id>.json`. -/
structure PatientData where
  patientId : String
  name : String
  therapistName : String
  therapistEmail : String
  enrolledBy : String
deriving DecidableEq, Repr

/-- A spreadsheet cell value (openpyxl stores the Python value: the
code writes strings everywhere except the emotional and activity
values, which it writes as integers). -/
inductive Cell where
  | str (s : String)
  | int (n : Int)
deriving DecidableEq, Repr

/-! ## Check-in store adapter

The flat-file store: `therapy_data/checkins/<patient_id>/` is the
per-patient directory (created by `os.makedirs` on first save), and
`checkin_<date>.json` inside it the record for one date, written with
open-mode `'w'` (truncate, i.e. overwrite on matching key). -/

/-- The storage state: a key-value map from `(patient id, date string)`
to a stored value, plus the existence of the per-patient check-in
directory. -/
structure Store (α : Type) where
  find : String → String → Option α
  dirExists : String → Bool

/-- Writing `checkin_<date>.json` in the patient's directory: upsert
the map at the key and mark the directory as existing
(`os.makedirs(patient_dir, exist_ok=True)` precedes the write). -/
def Store.put {α : Type} (st : Store α) (pid date : String) (v : α) : Store α where
  find := fun p d => if p = pid ∧ d = date then some v else st.find p d
  dirExists := fun p => if p = pid then true else st.dirExists p

/-- The store with no directories and no records. -/
def Store.empty {α : Type} : Store α := ⟨fun _ _ => none, fun _ => false⟩

/-- The week aggregator's fetch loop: for each resolved date (in
resolver order), look up `checkin_<date>.json` and keep the present
records keyed by date string.  (Python builds a dict by inserting in
date order; an association list in the same order is its faithful
image.) -/
def fetchWeek (st : Store Checkin) (pid : String) (dates : List Int) :
    List (String × Checkin) :=
  dates.filterMap (fun z => (st.find pid (dateStr z)).map (fun c => (dateStr z, c)))

/-- Dict lookup `week_data[date_str]` / `date_str in week_data` on the
association-list image. -/
def lookupDate (wd : List (String × Checkin)) (d : String) : Option Checkin :=
  (wd.find? (fun p => p.1 = d)).map (fun p => p.2)

/-! ## `get_week_data` (both backends)

Enhanced backend (`enhanced_therapy_backend.py:433-480`): under
`@mock_auth` the therapist is `admin@system`; the authorization branch
compares `patient.get('enrolledBy')` against it only when the patient
file exists.  The week string is parsed *inside*
`if os.path.exists(checkin_dir):` — a missing directory skips parsing
entirely and returns success with an empty mapping.  A parse failure
raises `ValueError`, caught by the endpoint's generic handler, which
returns `{'success': False, 'error': str(e)}, 500`. -/

/-- Response of the week-data endpoints. -/
structure WeekDataResponse where
  status : Nat
  success : Bool
  weekData : List (String × Checkin)
  isError : Bool
deriving DecidableEq, Repr

/-- `get_week_data` of `enhanced_therapy_backend.py`. -/
def get_week_data (patient : Option PatientData) (therapistEmail : String)
    (st : Store Checkin) (pid week : String) : WeekDataResponse :=
  match patient with
  | some p =>
    if p.enrolledBy ≠ therapistEmail ∧ therapistEmail ≠ "admin@system" then
      ⟨403, false, [], true⟩
    else
      if st.dirExists pid then
        match parseWeek week with
        | none => ⟨500, false, [], true⟩
        | some (y, wk) => ⟨200, true, fetchWeek st pid (enhancedWeekDates y wk), false⟩
      else ⟨200, true, [], false⟩
  | none =>
    if st.dirExists pid then
      match parseWeek week with
      | none => ⟨500, false, [], true⟩
      | some (y, wk) => ⟨200, true, fetchWeek st pid (enhancedWeekDates y wk), false⟩
    else ⟨200, true, [], false⟩

/-- `get_week_data` of `web_backend.py`: same directory-first shape, no
authorization check, and the web variant's week arithmetic. -/
def web_get_week_data (st : Store Checkin) (pid week : String) : WeekDataResponse :=
  if st.dirExists pid then
    match parseWeek week with
    | none => ⟨500, false, [], true⟩
    | some (y, wk) => ⟨200, true, fetchWeek st pid (webWeekDates y wk), false⟩
  else ⟨200, true, [], false⟩

/-! ## Week aggregation (`generate_excel_report`, lines 589-608, and
`email_therapy_report`, lines 845-859) -/

/-- `completed_days = len(week_data)`. -/
def completedDays (wd : List (String × Checkin)) : Nat := wd.length

/-- `sum(data['emotional']['value'] for data in week_data.values())`. -/
def totalEmotional (wd : List (String × Checkin)) : Int :=
  (wd.map (fun p => p.2.emotional.value)).sum

/-- `sum(data['medication']['value'] for data in week_data.values())`. -/
def totalMedication (wd : List (String × Checkin)) : Int :=
  (wd.map (fun p => p.2.medication.value)).sum

/-- `sum(data['activity']['value'] for data in week_data.values())`. -/
def totalActivity (wd : List (String × Checkin)) : Int :=
  (wd.map (fun p => p.2.activity.value)).sum

/-- Excel Summary sheet: `avg_emotional = total_emotional /
completed_days if completed_days > 0 else 0`.  (Exact division is
written `Rat.divInt` throughout so that the kernel can evaluate it;
`Rat.divInt a b` and `(a : Rat) / (b : Rat)` are the same rational.) -/
def excelAvgEmotional (wd : List (String × Checkin)) : Rat :=
  if 0 < completedDays wd then
    Rat.divInt (totalEmotional wd) (completedDays wd : Int) else 0

/-- Excel Summary sheet: `avg_medication = total_medication /
completed_days if completed_days > 0 else 0` — note: the sum runs over
*all* present records, including medication value 0. -/
def excelAvgMedication (wd : List (String × Checkin)) : Rat :=
  if 0 < completedDays wd then
    Rat.divInt (totalMedication wd) (completedDays wd : Int) else 0

/-- Excel Summary sheet: `avg_activity`. -/
def excelAvgActivity (wd : List (String × Checkin)) : Rat :=
  if 0 < completedDays wd then
    Rat.divInt (totalActivity wd) (completedDays wd : Int) else 0

/-- `email_therapy_report`'s `med_values`: medication values of present
records with `med_val > 0` ("Exclude 'Not Applicable'"). -/
def emailMedValues (wd : List (String × Checkin)) : List Int :=
  (wd.map (fun p => p.2.medication.value)).filter (fun v => 0 < v)

/-- `email_therapy_report`'s `avg_medication = sum(med_values) /
len(med_values) if med_values else 0` (and 0 when no record is
present at all). -/
def emailAvgMedication (wd : List (String × Checkin)) : Rat :=
  if 0 < completedDays wd then
    if 0 < (emailMedValues wd).length then
      Rat.divInt (emailMedValues wd).sum ((emailMedValues wd).length : Int)
    else 0
  else 0

/-- Modelled from the spec: "`averageMedication` = mean of
`medication.value` over present records whose medication value is
nonzero; 0 if the filtered set is empty."  Kept separate from the two
code variants so that each can be compared against it. -/
def specNonzeroMedMean (wd : List (String × Checkin)) : Rat :=
  let vs := (wd.map (fun p => p.2.medication.value)).filter (fun v => v ≠ 0)
  if 0 < vs.length then Rat.divInt vs.sum (vs.length : Int) else 0

/-! ## Rendering -/

/-- `round(q * 10^w)` with ties away from zero (for the nonnegative
values rendered here, `floor(q * 10^w + 1/2)`, computed on the
numerator and denominator): the exact-rational image of formatting a
float with `w` fractional digits. -/
def roundScaled (w : Nat) (q : Rat) : Int :=
  (2 * q.num * ((10 : Nat) ^ w : Nat) + (q.den : Int)) / (2 * (q.den : Int))

/-- `f"{q:.1f}"` on a nonnegative statistic. -/
def fixed1 (q : Rat) : String :=
  let n := roundScaled 1 q
  toString (n / 10) ++ "." ++ toString (n % 10).natAbs

/-- `f"{q:.2f}"` on a nonnegative statistic. -/
def fixed2 (q : Rat) : String :=
  let n := roundScaled 2 q
  toString (n / 100) ++ "." ++ padNum 2 (n % 100).natAbs

/-- Summary-sheet cell `f"{completed_days}/{total_days}
({completed_days / 7 * 100:.1f}%)"` (the rendered ratio
`completed_days / 7 * 100` is the exact rational
`100 * completed_days / 7`). -/
def completionCell (wd : List (String × Checkin)) : String :=
  toString (completedDays wd) ++ "/7 (" ++
    fixed1 (Rat.divInt (100 * (completedDays wd : Int)) 7) ++ "%)"

/-- Summary-sheet cell `f"{avg_emotional:.2f}/5" if completed_days > 0
else "N/A"`. -/
def avgEmotionalCell (wd : List (String × Checkin)) : String :=
  if 0 < completedDays wd then fixed2 (excelAvgEmotional wd) ++ "/5" else "N/A"

/-- Summary-sheet cell for "Avg Medication Adherence:". -/
def avgMedicationCell (wd : List (String × Checkin)) : String :=
  if 0 < completedDays wd then fixed2 (excelAvgMedication wd) ++ "/5" else "N/A"

/-- Summary-sheet cell for "Avg Physical Activity:". -/
def avgActivityCell (wd : List (String × Checkin)) : String :=
  if 0 < completedDays wd then fixed2 (excelAvgActivity wd) ++ "/5" else "N/A"

/-- The `stats_rows` list of the Summary sheet (columns D/E). -/
def statsRows (wd : List (String × Checkin)) : List (String × String) :=
  [("Completion Rate:", completionCell wd),
   ("Avg Emotional State:", avgEmotionalCell wd),
   ("Avg Medication Adherence:", avgMedicationCell wd),
   ("Avg Physical Activity:", avgActivityCell wd)]

/-- The `patient_info_rows` list of the Summary sheet (columns A/B);
`now` is `datetime.now().strftime("%Y-%m-%d %H:%M")`. -/
def patientInfoRows (p : PatientData) (week now : String) : List (String × String) :=
  [("Patient ID:", p.patientId),
   ("Patient Name:", p.name),
   ("Therapist:", p.therapistName),
   ("Therapist Email:", p.therapistEmail),
   ("Week:", week),
   ("Report Generated:", now)]

/-- The `medication_text` mapping: fixed labels for 0/1/3/5, the
literal numeric string otherwise (`.get(med_value, str(med_value))`). -/
def medicationText (v : Int) : String :=
  if v = 0 then "Not Applicable"
  else if v = 1 then "No Doses"
  else if v = 3 then "Partial Doses"
  else if v = 5 then "Yes, All Doses"
  else toString v

/-- Header row of the Daily Check-ins sheet. -/
def dailyHeaders : List Cell :=
  [.str "Date", .str "Day", .str "Time", .str "Emotional State",
   .str "Emotional Notes", .str "Medication Adherence", .str "Medication Notes",
   .str "Physical Activity", .str "Activity Notes", .str "Check-in Status"]

/-- One data row of the Daily Check-ins sheet for the resolved date
with day count `z` and weekday label `label`. -/
def dailyRow (wd : List (String × Checkin)) (z : Int) (label : String) : List Cell :=
  let date := dateStr z
  match lookupDate wd date with
  | some data =>
    [.str date, .str label, .str data.time,
     .int data.emotional.value, .str data.emotional.notes,
     .str (medicationText data.medication.value), .str data.medication.notes,
     .int data.activity.value, .str data.activity.notes,
     .str "Completed"]
  | none =>
    [.str date, .str label, .str "-", .str "-", .str "-", .str "-", .str "-",
     .str "-", .str "-", .str "No Response"]

/-- The Daily Check-ins sheet: header plus one row per resolved date,
Monday through Sunday. -/
def dailySheet (wd : List (String × Checkin)) (y wk : Int) : List (List Cell) :=
  dailyHeaders ::
    (List.range 7).map (fun (i : Nat) =>
      dailyRow wd (enhancedWeekStart y wk + (i : Int)) (daysOfWeek.getD i ""))

/-- Header row of the Detailed Notes sheet. -/
def notesHeaders : List Cell := [.str "Date", .str "Category", .str "Rating", .str "Notes"]

/-- The emotional-note row candidate for one check-in. -/
def emoNoteRow (d : String) (c : Checkin) : List Cell :=
  [.str d, .str "Emotional", .int c.emotional.value, .str c.emotional.notes]

/-- The medication-note row candidate for one check-in. -/
def medNoteRow (d : String) (c : Checkin) : List Cell :=
  [.str d, .str "Medication", .str (medicationText c.medication.value),
   .str c.medication.notes]

/-- The activity-note row candidate for one check-in. -/
def actNoteRow (d : String) (c : Checkin) : List Cell :=
  [.str d, .str "Physical Activity", .int c.activity.value, .str c.activity.notes]

/-- The notes-sheet rows one check-in contributes: one row per
non-empty note field, in the fixed category order Emotional,
Medication, Physical Activity. -/
def noteRowsFor (d : String) (c : Checkin) : List (List Cell) :=
  (if c.emotional.notes ≠ "" then [emoNoteRow d c] else []) ++
  (if c.medication.notes ≠ "" then [medNoteRow d c] else []) ++
  (if c.activity.notes ≠ "" then [actNoteRow d c] else [])

/-- Insertion into a string list sorted ascending (stable, as Python's
`sorted`). -/
def insertKey (x : String) : List String → List String
  | [] => [x]
  | y :: ys => if y < x then y :: insertKey x ys else x :: y :: ys

/-- `sorted(week_data.keys())`: lexicographic ascending sort of the
date strings. -/
def sortKeys : List String → List String
  | [] => []
  | x :: xs => insertKey x (sortKeys xs)

/-- The data rows of the Detailed Notes sheet:
`for date_str in sorted(week_data.keys()):` then the three
category-conditional appends. -/
def notesRows (wd : List (String × Checkin)) : List (List Cell) :=
  (sortKeys (wd.map (fun p => p.1))).flatMap (fun d =>
    match lookupDate wd d with
    | some c => noteRowsFor d c
    | none => [])

/-- The Detailed Notes sheet. -/
def notesSheet (wd : List (String × Checkin)) : List (List Cell) :=
  notesHeaders :: notesRows wd

/-- `f"therapy_report_{patient_id}_{week}_{timestamp}.xlsx"` where
`timestamp = datetime.now().strftime('%Y%m%d_%H%M%S')`. -/
def reportFilename (pid week ts : String) : String :=
  "therapy_report_" ++ pid ++ "_" ++ week ++ "_" ++ ts ++ ".xlsx"

/-- The rendered report: the value content of the three sheets plus
the generated filename. -/
structure Report where
  summaryInfo : List (String × String)
  summaryStats : List (String × String)
  daily : List (List Cell)
  notes : List (List Cell)
  filename : String
deriving DecidableEq, Repr

/-- The renderer body of `generate_excel_report`, once the patient
data, the fetched week data and the parsed `(year, week)` are at hand;
`now` and `ts` are the two `datetime.now()` readings (summary cell and
filename). -/
def buildReport (p : PatientData) (week : String) (wd : List (String × Checkin))
    (y wk : Int) (now ts : String) : Report where
  summaryInfo := patientInfoRows p week now
  summaryStats := statsRows wd
  daily := dailySheet wd y wk
  notes := notesSheet wd
  filename := reportFilename p.patientId week ts

/-- `generate_excel_report` of `enhanced_therapy_backend.py`: 404 when
the patient file is missing, 403 on the authorization check, then the
nested `get_week_data` call (whose error tuple makes the subsequent
`.get_json()` raise, caught as a 500), then the endpoint's own week
parse (`ValueError` → 500), then the renderer. -/
def generate_excel_report (patient : Option PatientData) (therapistEmail : String)
    (st : Store Checkin) (pid week now ts : String) : Except Nat Report :=
  match patient with
  | none => .error 404
  | some p =>
    if p.enrolledBy ≠ therapistEmail ∧ therapistEmail ≠ "admin@system" then
      .error 403
    else if (get_week_data (some p) therapistEmail st pid week).status ≠ 200 then
      .error 500
    else
      match parseWeek week with
      | none => .error 500
      | some (y, wk) =>
        .ok (buildReport p week
          (get_week_data (some p) therapistEmail st pid week).weekData y wk now ts)

/-- A report with the generation-timestamp cell and the
timestamp-bearing filename removed: the content C8 requires to be
reproducible. -/
def reportCore (r : Report) :
    List (String × String) × List (String × String) × List (List Cell) × List (List Cell) :=
  (r.summaryInfo.filter (fun row => row.1 ≠ "Report Generated:"),
   r.summaryStats, r.daily, r.notes)

/-! ## Email report body and dispatch (`email_therapy_report`) -/

/-- The medication line of the templated email body:
`f"- Average Medication Adherence: {avg_medication:.2f}/5
{"(excluding N/A)" if avg_medication > 0 else ""}"`. -/
def emailMedicationLine (wd : List (String × Checkin)) : String :=
  "- Average Medication Adherence: " ++ fixed2 (emailAvgMedication wd) ++ "/5 " ++
    (if 0 < emailAvgMedication wd then "(excluding N/A)" else "")

/-- The system email configuration (`get_system_email_config` returns
it, or `None` when neither the environment variables nor the config
file provide one). -/
structure EmailConfig where
  sender_email : String
  sender_password : String
  smtp_server : String
  smtp_port : Int
deriving DecidableEq, Repr

/-- Outcome of the blocking SMTP send: success, or one of the three
caught exception classes (`SMTPAuthenticationError`, `SMTPException`,
any other `Exception`), each carrying `str(e)`. -/
inductive SmtpOutcome where
  | ok
  | authError (msg : String)
  | smtpError (msg : String)
  | otherError (msg : String)
deriving DecidableEq, Repr

/-- The JSON response of `email_therapy_report`'s dispatch tail. -/
structure EmailResponse where
  status : Nat
  success : Bool
  message : String
  recipient : String
  content : Option String
  attachment : Option String
  note : Option String
  error : Option String
deriving DecidableEq, Repr

/-- The `error_message` the SMTP exception handlers record. -/
def smtpErrorMessage : SmtpOutcome → Option String
  | .ok => none
  | .authError m =>
    some ("Authentication failed: " ++ m ++ ". Please check your email and app password.")
  | .smtpError m => some ("SMTP error: " ++ m)
  | .otherError m => some ("General error: " ++ m)

/-- The dispatch tail of `email_therapy_report`
(`enhanced_therapy_backend.py:904-1022`), for the SMTP path (no
SendGrid key configured): when no configuration is present the send is
never attempted; when it is, `outcome` is what the `try` block
produces.  Either way a non-sent report yields a 200 response carrying
the composed body and the attachment filename. -/
def email_dispatch (config : Option EmailConfig) (outcome : SmtpOutcome)
    (recipient emailContent excelFilename : String) : EmailResponse :=
  match config with
  | none =>
    ⟨200, true, "Email report prepared", recipient, some emailContent,
     some excelFilename,
     some "Email not sent - system email not configured. Contact administrator.",
     none⟩
  | some _ =>
    match smtpErrorMessage outcome with
    | none =>
      ⟨200, true, "Email sent successfully", recipient, none, none,
       some "Email sent with Excel attachment", none⟩
    | some em =>
      ⟨200, true, "Email report prepared", recipient, some emailContent,
       some excelFilename,
       some ("Email configuration found but sending failed: " ++ em), some em⟩

/-! ## Check-in submission endpoints

The inbound body is a JSON dict; an association list of key/value
pairs is its faithful image (Python's `'key' in d` is key membership,
and the truthiness of a dict is its non-emptiness). -/

/-- A JSON value inside a submitted check-in dict: a string field
(`date`, `time`) or a rating object. -/
inductive SubVal where
  | s (v : String)
  | r (v : RatingEntry)
deriving DecidableEq, Repr

/-- The submitted `checkinData` dict. -/
abbrev SubmissionData : Type := List (String × SubVal)

/-- `field in checkin_data`. -/
def hasKey (d : SubmissionData) (k : String) : Bool :=
  d.any (fun p => p.1 = k)

/-- The `required_fields` list of the enhanced backend's validation
loop. -/
def requiredFields : List String :=
  ["date", "time", "emotional", "medication", "activity"]

/-- `checkin_data.get('date')` rendered into the filename
`f'checkin_{date}.json'`: the string itself for a string value, and
Python's `str(None)` = `"None"` when the key is absent. -/
def dateKeyOf (d : SubmissionData) : String :=
  match d.find? (fun p => p.1 = "date") with
  | some (_, .s v) => v
  | some (_, .r _) => "<rating>"
  | none => "None"

/-- `save_therapy_checkin` of `enhanced_therapy_backend.py` (lines
361-424): envelope truthiness check, patient existence (404),
authorization (403), the required-field loop (400), then metadata
(`serverTimestamp`, `recordedBy`) is appended and the record written.
Returns the HTTP status and the storage after the request. -/
def save_therapy_checkin (patient : Option PatientData) (therapistEmail : String)
    (st : Store SubmissionData) (pidOpt : Option String) (cd : Option SubmissionData)
    (now : String) : Nat × Store SubmissionData :=
  match pidOpt, cd with
  | some pid, some d =>
    if pid = "" ∨ d = [] then (400, st)
    else
      match patient with
      | none => (404, st)
      | some p =>
        if p.enrolledBy ≠ therapistEmail ∧ therapistEmail ≠ "admin@system" then
          (403, st)
        else
          match requiredFields.find? (fun f => ¬ hasKey d f) with
          | some _ => (400, st)
          | none =>
            let stored := d ++ [("serverTimestamp", SubVal.s now),
                                ("recordedBy", SubVal.s therapistEmail)]
            (200, st.put pid (dateKeyOf d) stored)
  | _, _ => (400, st)

/-- `save_therapy_checkin` of `web_backend.py` (lines 238-275):
envelope truthiness check only — no patient lookup, no authorization,
no required-field validation, no metadata — then the write. -/
def web_save_therapy_checkin (st : Store SubmissionData)
    (pidOpt : Option String) (cd : Option SubmissionData) :
    Nat × Store SubmissionData :=
  match pidOpt, cd with
  | some pid, some d =>
    if pid = "" ∨ d = [] then (400, st)
    else (200, st.put pid (dateKeyOf d) d)
  | _, _ => (400, st)

/-! ## Helper lemmas -/

/-- `datetime(y, 1, 4)` is three days after `datetime(y, 1, 1)`. -/
lemma jan4_eq_jan1_add_three (y : Int) : jan4 y = jan1 y + 3 := by
  unfold jan4 jan1 daysFromCivil
  norm_num
  omega

/-- The enhanced week start lies on a Monday. -/
lemma enhancedWeekStart_monday (y wk : Int) : pyWeekday (enhancedWeekStart y wk) = 0 := by
  unfold enhancedWeekStart week1Monday pyWeekday
  omega

/-- The week, offset back to week 1, contains January 4th. -/
lemma week1_contains_jan4 (y : Int) :
    enhancedWeekStart y 1 ≤ jan4 y ∧ jan4 y < enhancedWeekStart y 1 + 7 := by
  unfold enhancedWeekStart week1Monday pyWeekday
  omega

/-- Relation between the two backends' week starts: when January 1st
falls Monday-Thursday the web backend resolves one week later than the
enhanced backend; when it falls Friday-Sunday the two agree. -/
lemma webWeekStart_vs_enhanced (y wk : Int) :
    webWeekStart y wk =
      if pyWeekday (jan1 y) ≤ 3 then enhancedWeekStart y (wk + 1)
      else enhancedWeekStart y wk := by
  unfold webWeekStart webFirstMonday webDaysToMonday enhancedWeekStart week1Monday pyWeekday
  rw [jan4_eq_jan1_add_three]
  generalize jan1 y = a
  split <;> split <;> omega

/-- An empty store fetch yields an empty week. -/
lemma fetchWeek_eq_nil (st : Store Checkin) (pid : String) (dates : List Int)
    (h : ∀ d, st.find pid d = none) : fetchWeek st pid dates = [] := by
  unfold fetchWeek
  simp [h]

/-! ## Claim C2 -/

/-- Claim C2, amended.  The enhanced backend's week resolution
satisfies the contract for every year and every week number 1-53: the
resolved week is exactly the 7 consecutive dates starting from the
Monday of the week containing January 4th advanced by `(week - 1)`
weeks; the start is a Monday and the `i`-th date has weekday `i`, so
the fixed labels Monday..Sunday attached by position are the true
weekday names (determinism is definitional: the resolver is a pure
function of `(year, week)`).  The web backend does NOT satisfy the
same contract: its week start is the enhanced backend's week start of
week `wk + 1` whenever January 1st of the year falls Monday-Thursday,
and of week `wk` otherwise. -/
theorem C2_theorem (y wk : Int) (h1 : 1 ≤ wk) (h53 : wk ≤ 53) :
    enhancedWeekDates y wk =
      (List.range 7).map (fun i => enhancedWeekStart y wk + (i : Int))
    ∧ pyWeekday (enhancedWeekStart y wk) = 0
    ∧ (∀ i : Nat, i < 7 → pyWeekday (enhancedWeekStart y wk + (i : Int)) = i)
    ∧ enhancedWeekStart y 1 ≤ jan4 y
    ∧ jan4 y < enhancedWeekStart y 1 + 7
    ∧ enhancedWeekStart y wk = enhancedWeekStart y 1 + 7 * (wk - 1)
    ∧ webWeekStart y wk =
        (if pyWeekday (jan1 y) ≤ 3 then enhancedWeekStart y (wk + 1)
         else enhancedWeekStart y wk) := by
  refine ⟨rfl, enhancedWeekStart_monday y wk, ?_, (week1_contains_jan4 y).1,
    (week1_contains_jan4 y).2, ?_, webWeekStart_vs_enhanced y wk⟩
  · intro i hi
    have h0 := enhancedWeekStart_monday y wk
    unfold pyWeekday at h0 ⊢
    interval_cases i <;> omega
  · unfold enhancedWeekStart
    ring

/-- Claim C2, counterexample to the original claim: for year 2024
(January 1st a Monday) and week 1, the contract start is 2024-01-01,
which the enhanced backend produces, but the web backend resolves the
week starting 2024-01-08 — the two variants do not satisfy the same
contract. -/
theorem C2_counterexample :
    enhancedWeekStart 2024 1 = daysFromCivil 2024 1 1
    ∧ webWeekStart 2024 1 = daysFromCivil 2024 1 8
    ∧ webWeekDates 2024 1 ≠ enhancedWeekDates 2024 1 := by
  decide

/-- Claim C2, witness: the amended theorem applied at year 2025, week
7 (January 1st 2025 is a Wednesday, so the web backend is one week
late there). -/
theorem C2_witness :
    pyWeekday (enhancedWeekStart 2025 7) = 0
    ∧ webWeekStart 2025 7 =
        (if pyWeekday (jan1 2025) ≤ 3 then enhancedWeekStart 2025 8
         else enhancedWeekStart 2025 7) := by
  have h := C2_theorem 2025 7 (by norm_num) (by norm_num)
  exact ⟨h.2.1, h.2.2.2.2.2.2⟩

/-! ## Claim C10 -/

/-- Claim C10: when the patient's check-in directory does not exist,
`get_week_data` of either backend returns a 200 success response with
an empty date-to-record mapping for *every* week string — the week
identifier is only parsed inside the directory-exists branch, so a
malformed week never produces an error on this path.  (`@mock_auth`
fixes the requesting therapist to `admin@system`, so the enhanced
backend's authorization branch cannot fire.) -/
theorem C10_theorem (patient : Option PatientData) (st : Store Checkin)
    (pid week : String) (h : st.dirExists pid = false) :
    get_week_data patient "admin@system" st pid week = ⟨200, true, [], false⟩
    ∧ web_get_week_data st pid week = ⟨200, true, [], false⟩ := by
  unfold get_week_data web_get_week_data
  cases patient <;> simp [h]

/-- Claim C10, witness: an empty store, patient `P1`, and the
malformed week string `2024-5` still give the empty success
response. -/
theorem C10_witness :
    get_week_data none "admin@system" Store.empty "P1" "2024-5"
        = ⟨200, true, [], false⟩
    ∧ web_get_week_data Store.empty "P1" "2024-5" = ⟨200, true, [], false⟩ :=
  C10_theorem none Store.empty "P1" "2024-5" rfl

/-! ## Claim C3 -/

/-- Claim C3, amended.  Week strings that fail to parse (wrong
separator, non-numeric parts) make `get_week_data` fail — but only
when the patient's check-in directory exists, with the generic
500/`str(e)` response of the endpoint's catch-all handler (there is no
dedicated `MalformedWeekIdentifier` error), and only after the
patient-file and check-in-directory storage checks, not before any
storage access.  `generate_excel_report` on an existing patient fails
with a 500 for such strings whether or not the directory exists.
Numeric week numbers outside 1-53 are not rejected, clamped, or
corrected: any parsed `(year, wk)` — week 60 included — yields a 200
response whose mapping is fetched for exactly the dates offset
`(wk - 1)` weeks from week 1. -/
theorem C3_theorem (patient : Option PatientData) (p : PatientData)
    (st : Store Checkin) (pid week now ts : String) (y wk : Int) :
    (st.dirExists pid = true → parseWeek week = none →
      get_week_data patient "admin@system" st pid week = ⟨500, false, [], true⟩)
    ∧ (parseWeek week = none →
        generate_excel_report (some p) "admin@system" st pid week now ts
          = .error 500)
    ∧ (st.dirExists pid = true → parseWeek week = some (y, wk) →
        get_week_data patient "admin@system" st pid week
          = ⟨200, true, fetchWeek st pid (enhancedWeekDates y wk), false⟩) := by
  refine ⟨?_, ?_, ?_⟩
  · intro hd hw
    unfold get_week_data
    cases patient <;> simp [hd, hw]
  · intro hw
    unfold generate_excel_report get_week_data
    by_cases hd : st.dirExists pid <;> simp [hd, hw]
  · intro hd hw
    unfold get_week_data
    cases patient <;> simp [hd, hw]

/-- Claim C3, counterexample to the original claim: with the patient's
check-in directory existing (but empty) and the out-of-range week
number 60, week-data retrieval returns 200 success — no
`MalformedWeekIdentifier` failure — and report generation succeeds,
returning a rendered report rather than an error. -/
theorem C3_counterexample :
    (get_week_data none "admin@system"
        ⟨fun _ _ => none, fun _ => true⟩ "P1" "2024-W60").status = 200
    ∧ (get_week_data none "admin@system"
        ⟨fun _ _ => none, fun _ => true⟩ "P1" "2024-W60").success = true
    ∧ generate_excel_report (some ⟨"P1", "Ann", "Dr. B", "b@c.org", "admin@system"⟩)
        "admin@system" ⟨fun _ _ => none, fun _ => true⟩ "P1" "2024-W60" "now" "ts"
      = .ok (buildReport ⟨"P1", "Ann", "Dr. B", "b@c.org", "admin@system"⟩
          "2024-W60" [] 2024 60 "now" "ts") :=
  ⟨by decide, by decide, by rfl⟩

/-- Claim C3, witness: the amended theorem applied to the malformed
string `2024-5` and the unclamped week `2024-W60` on a store whose
directory for `P1` exists. -/
theorem C3_witness :
    get_week_data none "admin@system"
        ⟨fun _ _ => none, fun _ => true⟩ "P1" "2024-5" = ⟨500, false, [], true⟩
    ∧ generate_excel_report (some ⟨"P1", "Ann", "Dr. B", "b@c.org", "admin@system"⟩)
        "admin@system" ⟨fun _ _ => none, fun _ => true⟩ "P1" "2024-5" "now" "ts"
      = .error 500 := by
  have h := C3_theorem none ⟨"P1", "Ann", "Dr. B", "b@c.org", "admin@system"⟩
    ⟨fun _ _ => none, fun _ => true⟩ "P1" "2024-5" "now" "ts" 2024 60
  exact ⟨h.1 rfl (by decide), h.2.1 (by decide)⟩

/-! ## Claim C1 -/

/-- The failing input for claim C1: week 2024-W05 with two present
records, medication values 5 (Monday 2024-01-29) and 0 "Not
Applicable" (Wednesday 2024-01-31). -/
def c1week : List (String × Checkin) :=
  [("2024-01-29", ⟨"09:00", ⟨5, ""⟩, ⟨5, ""⟩, ⟨4, ""⟩⟩),
   ("2024-01-31", ⟨"10:00", ⟨2, ""⟩, ⟨0, ""⟩, ⟨3, ""⟩⟩)]

/-- A store holding exactly the two `c1week` check-ins of patient
`P1`. -/
def c1store : Store Checkin where
  find := fun p d =>
    if p = "P1" ∧ d = "2024-01-29" then some ⟨"09:00", ⟨5, ""⟩, ⟨5, ""⟩, ⟨4, ""⟩⟩
    else if p = "P1" ∧ d = "2024-01-31" then some ⟨"10:00", ⟨2, ""⟩, ⟨0, ""⟩, ⟨3, ""⟩⟩
    else none
  dirExists := fun _ => true

/-- Claim C1 fails on the code: on a week whose present records have
medication values 5 and 0, the mean over the nonzero values (the
claim's required statistic, which the email body indeed shows, with
its "(excluding N/A)" tag) is 5, but the Excel Summary sheet's "Avg
Medication Adherence" divides the sum over *all* present records by
`completed_days`, rendering 2.50/5 — the report's own email body and
its attached spreadsheet disagree about the same week.  The final
conjunct evaluates the full report endpoint on a store holding exactly
these two records. -/
theorem C1_code_bug_eval :
    specNonzeroMedMean c1week = 5
    ∧ emailAvgMedication c1week = 5
    ∧ emailMedicationLine c1week
        = "- Average Medication Adherence: 5.00/5 (excluding N/A)"
    ∧ excelAvgMedication c1week = 5 / 2
    ∧ excelAvgMedication c1week ≠ specNonzeroMedMean c1week
    ∧ avgMedicationCell c1week = "2.50/5"
    ∧ (statsRows c1week).getD 2 ("", "")
        = ("Avg Medication Adherence:", "2.50/5")
    ∧ (generate_excel_report (some ⟨"P1", "Ann", "Dr. B", "b@c.org", "admin@system"⟩)
          "admin@system" c1store "P1" "2024-W05" "now" "ts").map
        (fun r => r.summaryStats.getD 2 ("", ""))
      = .ok ("Avg Medication Adherence:", "2.50/5") := by
  refine ⟨by decide, by decide, by decide, ?_, by decide, by decide, by decide, by rfl⟩
  rw [show ((5 : Rat) / 2) = Rat.divInt 5 2 by rw [Rat.divInt_eq_div]; norm_num]
  decide

/-! ## Claim C5 -/

/-- The placeholder daily row rendered for a date with no stored
check-in. -/
def emptyDailyRow (date label : String) : List Cell :=
  [.str date, .str label, .str "-", .str "-", .str "-", .str "-", .str "-",
   .str "-", .str "-", .str "No Response"]

/-- Claim C5: for a week with zero stored check-ins, report generation
succeeds (no error), `completedDays` is 0, the three averages render
"N/A" and the completion rate "0/7 (0.0%)" in the Summary sheet, each
of the 7 daily rows carries "-" in its value/note columns with status
"No Response", and the Detailed Notes sheet holds only its header
row. -/
theorem C5_theorem (p : PatientData) (st : Store Checkin)
    (pid week now ts : String) (y wk : Int)
    (hpw : parseWeek week = some (y, wk))
    (hempty : ∀ d, st.find pid d = none) :
    generate_excel_report (some p) "admin@system" st pid week now ts
      = .ok (buildReport p week [] y wk now ts)
    ∧ completedDays ([] : List (String × Checkin)) = 0
    ∧ statsRows [] =
        [("Completion Rate:", "0/7 (0.0%)"),
         ("Avg Emotional State:", "N/A"),
         ("Avg Medication Adherence:", "N/A"),
         ("Avg Physical Activity:", "N/A")]
    ∧ dailySheet [] y wk =
        dailyHeaders :: (List.range 7).map (fun (i : Nat) =>
          emptyDailyRow (dateStr (enhancedWeekStart y wk + (i : Int)))
            (daysOfWeek.getD i ""))
    ∧ notesSheet [] = [notesHeaders] := by
  refine ⟨?_, rfl, by decide, ?_, rfl⟩
  · unfold generate_excel_report get_week_data
    by_cases hd : st.dirExists pid <;>
      simp [hd, hpw, fetchWeek_eq_nil st pid _ hempty]
  · unfold dailySheet dailyRow emptyDailyRow lookupDate
    simp

/-- Claim C5, witness: the empty store, patient `P1`, week 2024-W05. -/
theorem C5_witness :
    generate_excel_report (some ⟨"P1", "Ann", "Dr. B", "b@c.org", "admin@system"⟩)
        "admin@system" Store.empty "P1" "2024-W05" "now" "ts"
      = .ok (buildReport ⟨"P1", "Ann", "Dr. B", "b@c.org", "admin@system"⟩
          "2024-W05" [] 2024 5 "now" "ts")
    ∧ statsRows [] =
        [("Completion Rate:", "0/7 (0.0%)"),
         ("Avg Emotional State:", "N/A"),
         ("Avg Medication Adherence:", "N/A"),
         ("Avg Physical Activity:", "N/A")] := by
  have h := C5_theorem ⟨"P1", "Ann", "Dr. B", "b@c.org", "admin@system"⟩
    Store.empty "P1" "2024-W05" "now" "ts" 2024 5 (by decide) (fun _ => rfl)
  exact ⟨h.1, h.2.2.1⟩

/-! ## Claim C8 -/

/-- The report core of a rendered report is independent of the two
`datetime.now()` readings: the timestamp reaches exactly the
"Report Generated:" summary row and the filename, both of which
`reportCore` strips. -/
lemma reportCore_buildReport (p : PatientData) (week : String)
    (wd : List (String × Checkin)) (y wk : Int) (now ts : String) :
    reportCore (buildReport p week wd y wk now ts) =
      ([("Patient ID:", p.patientId), ("Patient Name:", p.name),
        ("Therapist:", p.therapistName), ("Therapist Email:", p.therapistEmail),
        ("Week:", week)],
       statsRows wd, dailySheet wd y wk, notesSheet wd) := by
  unfold reportCore buildReport patientInfoRows
  simp [List.filter]

/-- Claim C8: regenerating the report for the same patient, week and
storage state yields identical aggregate statistics and identical cell
contents in all three sheets, for any two generation timestamps — only
the embedded "Report Generated:" value and the timestamp-bearing
filename (both excluded by `reportCore`) can differ, and the
error/success outcome is identical as well. -/
theorem C8_theorem (patient : Option PatientData) (te : String)
    (st : Store Checkin) (pid week now1 ts1 now2 ts2 : String) :
    (generate_excel_report patient te st pid week now1 ts1).map reportCore
      = (generate_excel_report patient te st pid week now2 ts2).map reportCore := by
  unfold generate_excel_report
  cases patient with
  | none => rfl
  | some p =>
    by_cases h : p.enrolledBy ≠ te ∧ te ≠ "admin@system"
    · simp [h]
    · by_cases hs : (get_week_data (some p) te st pid week).status ≠ 200
      · simp [h, hs]
      · cases hpw : parseWeek week with
        | none => simp [h, hs, hpw]
        | some yw => simp [h, hs, hpw, Except.map, reportCore_buildReport]

/-! ## Claim C7 -/

/-- Claim C7: on the email-report endpoint, when no system email
configuration is present, or when the SMTP send raises any of the
caught transport errors, the dispatch tail returns a 200
`success = true` response (no exception propagates) that carries the
composed email body and the attachment filename, is marked not sent
("Email report prepared" plus a `note`), and — when a configuration
was present and sending was attempted — carries the transport error
text in its `error` field. -/
theorem C7_theorem (config : Option EmailConfig) (outcome : SmtpOutcome)
    (recipient content filename : String)
    (h : config = none ∨ outcome ≠ SmtpOutcome.ok) :
    (email_dispatch config outcome recipient content filename).status = 200
    ∧ (email_dispatch config outcome recipient content filename).success = true
    ∧ (email_dispatch config outcome recipient content filename).message
        = "Email report prepared"
    ∧ (email_dispatch config outcome recipient content filename).content
        = some content
    ∧ (email_dispatch config outcome recipient content filename).attachment
        = some filename
    ∧ (email_dispatch config outcome recipient content filename).note.isSome = true
    ∧ (config = none →
        (email_dispatch config outcome recipient content filename).error = none)
    ∧ (∀ c, config = some c →
        (email_dispatch config outcome recipient content filename).error
            = smtpErrorMessage outcome
          ∧ (smtpErrorMessage outcome).isSome = true) := by
  cases config with
  | none => simp [email_dispatch]
  | some c =>
    have ho : outcome ≠ SmtpOutcome.ok := by
      rcases h with h | h
      · exact absurd h (by simp)
      · exact h
    cases outcome with
    | ok => exact absurd rfl ho
    | authError m => simp [email_dispatch, smtpErrorMessage]
    | smtpError m => simp [email_dispatch, smtpErrorMessage]
    | otherError m => simp [email_dispatch, smtpErrorMessage]

/-- Claim C7, witness: no configuration present, concrete body and
attachment. -/
theorem C7_witness :
    (email_dispatch none SmtpOutcome.ok "t@x.org" "Dear Dr." "r.xlsx").status = 200
    ∧ (email_dispatch none SmtpOutcome.ok "t@x.org" "Dear Dr." "r.xlsx").success = true
    ∧ (email_dispatch none SmtpOutcome.ok "t@x.org" "Dear Dr." "r.xlsx").message
        = "Email report prepared"
    ∧ (email_dispatch none SmtpOutcome.ok "t@x.org" "Dear Dr." "r.xlsx").content
        = some "Dear Dr."
    ∧ (email_dispatch none SmtpOutcome.ok "t@x.org" "Dear Dr." "r.xlsx").attachment
        = some "r.xlsx" := by
  have h := C7_theorem none SmtpOutcome.ok "t@x.org" "Dear Dr." "r.xlsx" (Or.inl rfl)
  exact ⟨h.1, h.2.1, h.2.2.1, h.2.2.2.1, h.2.2.2.2.1⟩

/-! ## Claim C4 -/

/-- Claim C4, amended.  The enhanced backend's save-checkin endpoint
rejects a submission missing any of date/time/emotional/medication/
activity with status 400 and leaves the store untouched (given a
non-empty envelope and an existing patient — the request is under
`@mock_auth`, i.e. therapist `admin@system`).  The web backend's
save-checkin endpoint performs no such validation: any non-empty
submission is accepted with 200 and written to the store. -/
theorem C4_theorem :
    (∀ (p : PatientData) (st : Store SubmissionData) (pid : String)
        (d : SubmissionData) (now f : String),
        pid ≠ "" → d ≠ [] → f ∈ requiredFields → hasKey d f = false →
        save_therapy_checkin (some p) "admin@system" st (some pid) (some d) now
          = (400, st))
    ∧ (∀ (st : Store SubmissionData) (pid : String) (d : SubmissionData),
        pid ≠ "" → d ≠ [] →
        (web_save_therapy_checkin st (some pid) (some d)).1 = 200
        ∧ (web_save_therapy_checkin st (some pid) (some d)).2.find pid (dateKeyOf d)
            = some d) := by
  constructor
  · intro p st pid d now f hpid hd hmem hkey
    unfold save_therapy_checkin
    dsimp only
    rw [if_neg (by tauto)]
    rw [if_neg (by simp)]
    cases hf : requiredFields.find? (fun f => ¬ hasKey d f) with
    | none =>
      exfalso
      have := List.find?_eq_none.mp hf f hmem
      simp [hkey] at this
    | some g => rfl
  · intro st pid d hpid hd
    unfold web_save_therapy_checkin
    dsimp only
    rw [if_neg (by tauto)]
    exact ⟨rfl, by simp [Store.put]⟩

/-- The submission of claim C4's counterexample: a non-empty check-in
body with time/emotional/medication/activity but no `date` key. -/
def c4sub : SubmissionData :=
  [("time", SubVal.s "09:00"), ("emotional", SubVal.r ⟨3, ""⟩),
   ("medication", SubVal.r ⟨5, ""⟩), ("activity", SubVal.r ⟨2, ""⟩)]

/-- Claim C4, counterexample to the original claim: the web backend's
save-checkin accepts a submission with the `date` field missing,
returns 200, and writes a record (under the key `str(None)` = "None")
— so the "rejects with 400 and performs no write" property does not
hold for both backend variants. -/
theorem C4_counterexample :
    hasKey c4sub "date" = false
    ∧ (web_save_therapy_checkin Store.empty (some "P1") (some c4sub)).1 = 200
    ∧ (web_save_therapy_checkin Store.empty (some "P1") (some c4sub)).2.find
        "P1" "None" = some c4sub
    ∧ (Store.empty : Store SubmissionData).find "P1" "None" = none := by
  refine ⟨by decide, by decide, ?_, rfl⟩
  decide

/-- Claim C4, witness: the amended theorem applied to a patient `P1`
and the `date`-less submission `c4sub` on both backends. -/
theorem C4_witness :
    save_therapy_checkin (some ⟨"P1", "Ann", "Dr. B", "b@c.org", "admin@system"⟩)
        "admin@system" Store.empty (some "P1") (some c4sub) "now"
      = (400, Store.empty)
    ∧ (web_save_therapy_checkin Store.empty (some "P1") (some c4sub)).1 = 200 := by
  have h := C4_theorem
  refine ⟨h.1 ⟨"P1", "Ann", "Dr. B", "b@c.org", "admin@system"⟩ Store.empty "P1"
    c4sub "now" "date" (by decide) (by decide) (by decide) (by decide), ?_⟩
  exact (h.2 Store.empty "P1" c4sub (by decide) (by decide)).1

/-! ## Claim C6 -/

/-- Overwriting the same `(patient, date)` key twice leaves exactly
the second value: the first write is invisible to every lookup. -/
lemma Store.find_put_put {α : Type} (st : Store α) (pid date : String)
    (v1 v2 : α) (p d : String) :
    ((st.put pid date v1).put pid date v2).find p d
      = (st.put pid date v2).find p d := by
  simp only [Store.put]
  split <;> simp [*]

/-- `fetchWeek` depends on the store only through `find` at the
fetched patient. -/
lemma fetchWeek_congr (s1 s2 : Store Checkin) (pid : String) (dates : List Int)
    (h : ∀ d, s1.find pid d = s2.find pid d) :
    fetchWeek s1 pid dates = fetchWeek s2 pid dates := by
  unfold fetchWeek
  simp [h]

/-- The save endpoint either rejects and leaves the store untouched,
or returns 200 and upserts the metadata-extended record at the
submission's date key. -/
lemma save_checkin_cases (patient : Option PatientData) (te : String)
    (st : Store SubmissionData) (pid : String) (d : SubmissionData) (now : String) :
    (save_therapy_checkin patient te st (some pid) (some d) now
        = ((save_therapy_checkin patient te st (some pid) (some d) now).1, st)
      ∧ (save_therapy_checkin patient te st (some pid) (some d) now).1 ≠ 200)
    ∨ save_therapy_checkin patient te st (some pid) (some d) now
        = (200, st.put pid (dateKeyOf d)
            (d ++ [("serverTimestamp", SubVal.s now), ("recordedBy", SubVal.s te)])) := by
  unfold save_therapy_checkin
  dsimp only
  split
  · exact Or.inl ⟨rfl, by simp⟩
  · cases patient with
    | none => exact Or.inl ⟨rfl, by simp⟩
    | some p =>
      dsimp only
      split
      · exact Or.inl ⟨rfl, by simp⟩
      · split
        · exact Or.inl ⟨rfl, by simp⟩
        · exact Or.inr rfl

/-- The endpoint's status does not depend on the incoming store. -/
lemma save_checkin_status_const (patient : Option PatientData) (te : String)
    (st1 st2 : Store SubmissionData) (pid : String) (d : SubmissionData)
    (now : String) :
    (save_therapy_checkin patient te st1 (some pid) (some d) now).1
      = (save_therapy_checkin patient te st2 (some pid) (some d) now).1 := by
  unfold save_therapy_checkin
  dsimp only
  split
  · rfl
  · cases patient with
    | none => rfl
    | some p =>
      dsimp only
      split
      · rfl
      · split <;> rfl

/-- Claim C6: at most one record per `(patient, date)` — the store is
keyed by the date-determined filename, and a second write to the same
key wholly replaces the first.  Every lookup and every later week
aggregation over the twice-written store sees only the most recent
record, and submitting two check-ins with the same date through the
enhanced save endpoint leaves the store exactly as if only the second
had been submitted. -/
theorem C6_theorem (st : Store Checkin) (pid date : String) (c1 c2 : Checkin) :
    (∀ p d, ((st.put pid date c1).put pid date c2).find p d
        = (st.put pid date c2).find p d)
    ∧ (st.put pid date c2).find pid date = some c2
    ∧ (∀ pid2 dates, fetchWeek ((st.put pid date c1).put pid date c2) pid2 dates
        = fetchWeek (st.put pid date c2) pid2 dates)
    ∧ (∀ (sst : Store SubmissionData) (patient : Option PatientData)
        (te now1 now2 : String) (d1 d2 : SubmissionData),
        dateKeyOf d1 = dateKeyOf d2 →
        (save_therapy_checkin patient te sst (some pid) (some d2) now2).1 = 200 →
        ∀ p q, (save_therapy_checkin patient te
            (save_therapy_checkin patient te sst (some pid) (some d1) now1).2
            (some pid) (some d2) now2).2.find p q
          = (save_therapy_checkin patient te sst (some pid) (some d2) now2).2.find
              p q) := by
  refine ⟨fun p d => Store.find_put_put st pid date c1 c2 p d,
    by simp [Store.put], ?_, ?_⟩
  · intro pid2 dates
    apply fetchWeek_congr
    intro d
    exact Store.find_put_put st pid date c1 c2 pid2 d
  · intro sst patient te now1 now2 d1 d2 hkey h200 p q
    rcases save_checkin_cases patient te sst pid d1 now1 with ⟨he, _⟩ | he
    · rw [he]
    · rw [he]
      have h200l : (save_therapy_checkin patient te
          (sst.put pid (dateKeyOf d1)
            (d1 ++ [("serverTimestamp", SubVal.s now1), ("recordedBy", SubVal.s te)]))
          (some pid) (some d2) now2).1 = 200 := by
        rw [save_checkin_status_const patient te _ sst pid d2 now2]
        exact h200
      rcases save_checkin_cases patient te
          (sst.put pid (dateKeyOf d1)
            (d1 ++ [("serverTimestamp", SubVal.s now1), ("recordedBy", SubVal.s te)]))
          pid d2 now2 with ⟨_, hne⟩ | hl
      · exact absurd h200l hne
      · rcases save_checkin_cases patient te sst pid d2 now2 with ⟨_, hne⟩ | hr
        · exact absurd h200 hne
        · rw [hl, hr, hkey]
          exact Store.find_put_put sst pid (dateKeyOf d2) _ _ p q

/-- Claim C6, witness: two submissions for patient `P1`, date
2024-01-29, through the enhanced endpoint; the final store equals the
one where only the second was saved, at the written key. -/
theorem C6_witness :
    (save_therapy_checkin (some ⟨"P1", "Ann", "Dr. B", "b@c.org", "admin@system"⟩)
        "admin@system"
        (save_therapy_checkin
          (some ⟨"P1", "Ann", "Dr. B", "b@c.org", "admin@system"⟩) "admin@system"
          Store.empty (some "P1")
          (some [("date", SubVal.s "2024-01-29"), ("time", SubVal.s "08:00"),
                 ("emotional", SubVal.r ⟨1, ""⟩), ("medication", SubVal.r ⟨1, ""⟩),
                 ("activity", SubVal.r ⟨1, ""⟩)]) "t1").2
        (some "P1")
        (some [("date", SubVal.s "2024-01-29"), ("time", SubVal.s "09:30"),
               ("emotional", SubVal.r ⟨4, ""⟩), ("medication", SubVal.r ⟨5, ""⟩),
               ("activity", SubVal.r ⟨3, ""⟩)]) "t2").2.find "P1" "2024-01-29"
      = (save_therapy_checkin
          (some ⟨"P1", "Ann", "Dr. B", "b@c.org", "admin@system"⟩) "admin@system"
          Store.empty (some "P1")
          (some [("date", SubVal.s "2024-01-29"), ("time", SubVal.s "09:30"),
                 ("emotional", SubVal.r ⟨4, ""⟩), ("medication", SubVal.r ⟨5, ""⟩),
                 ("activity", SubVal.r ⟨3, ""⟩)]) "t2").2.find "P1" "2024-01-29" :=
  (C6_theorem Store.empty "P1" "2024-01-29" ⟨"", ⟨0, ""⟩, ⟨0, ""⟩, ⟨0, ""⟩⟩
    ⟨"", ⟨0, ""⟩, ⟨0, ""⟩, ⟨0, ""⟩⟩).2.2.2 Store.empty
    (some ⟨"P1", "Ann", "Dr. B", "b@c.org", "admin@system"⟩) "admin@system" "t1" "t2"
    [("date", SubVal.s "2024-01-29"), ("time", SubVal.s "08:00"),
     ("emotional", SubVal.r ⟨1, ""⟩), ("medication", SubVal.r ⟨1, ""⟩),
     ("activity", SubVal.r ⟨1, ""⟩)]
    [("date", SubVal.s "2024-01-29"), ("time", SubVal.s "09:30"),
     ("emotional", SubVal.r ⟨4, ""⟩), ("medication", SubVal.r ⟨5, ""⟩),
     ("activity", SubVal.r ⟨3, ""⟩)]
    (by decide) (by decide) "P1" "2024-01-29"

/-! ## Claim C9 -/

/-- Inserting a key below every element of a list prepends it. -/
lemma insertKey_of_forall_lt (x : String) (ys : List String)
    (h : ∀ y ∈ ys, x < y) : insertKey x ys = x :: ys := by
  cases ys with
  | nil => rfl
  | cons y ys =>
    unfold insertKey
    rw [if_neg]
    exact fun hlt => absurd hlt (asymm (h y (by simp)))

/-- Sorting a strictly-ascending key list is the identity: the notes
loop visits an already-ascending week in stored order. -/
lemma sortKeys_of_pairwise (ks : List String) (h : ks.Pairwise (· < ·)) :
    sortKeys ks = ks := by
  induction ks with
  | nil => rfl
  | cons x xs ih =>
    rw [sortKeys, ih (List.pairwise_cons.mp h).2]
    exact insertKey_of_forall_lt x xs (List.pairwise_cons.mp h).1

/-- Lookup at the head key. -/
lemma lookupDate_cons_self (d : String) (c : Checkin)
    (tl : List (String × Checkin)) : lookupDate ((d, c) :: tl) d = some c := by
  simp [lookupDate]

/-- Lookup skips a head with a different key. -/
lemma lookupDate_cons_ne (d d' : String) (c : Checkin)
    (tl : List (String × Checkin)) (h : d ≠ d') :
    lookupDate ((d, c) :: tl) d' = lookupDate tl d' := by
  unfold lookupDate
  rw [List.find?_cons_of_neg _ (by simp [h])]

/-- With pairwise-distinct keys, lookup of a member's key returns its
value. -/
lemma lookupDate_self (wd : List (String × Checkin))
    (h : (wd.map Prod.fst).Pairwise (· ≠ ·)) :
    ∀ p ∈ wd, lookupDate wd p.1 = some p.2 := by
  induction wd with
  | nil => simp
  | cons hd tl ih =>
    obtain ⟨d, c⟩ := hd
    intro p hp
    rcases List.mem_cons.mp hp with rfl | hp
    · exact lookupDate_cons_self d c tl
    · have hne : d ≠ p.1 := by
        have := (List.pairwise_cons.mp h).1 p.1 (by
          exact List.mem_map.mpr ⟨p, hp, rfl⟩)
        exact this
      rw [lookupDate_cons_ne d p.1 c tl hne]
      exact ih (by
        have := (List.pairwise_cons.mp h).2
        simpa using this) p hp

/-- Iterating over a member-faithful lookup is iterating over the
entries themselves. -/
lemma flatMap_lookup_eq (big : List (String × Checkin)) :
    ∀ tl : List (String × Checkin),
      (∀ p ∈ tl, lookupDate big p.1 = some p.2) →
      (tl.map Prod.fst).flatMap (fun d =>
          match lookupDate big d with
          | some c => noteRowsFor d c
          | none => []) = tl.flatMap (fun p => noteRowsFor p.1 p.2) := by
  intro tl
  induction tl with
  | nil => intro _; rfl
  | cons hd tl ih =>
    intro h
    rw [List.map_cons, List.flatMap_cons, List.flatMap_cons,
      h hd (by simp), ih (fun p hp => h p (by simp [hp]))]

/-- The number of non-empty note fields of a check-in. -/
def notesCount (c : Checkin) : Nat :=
  (if c.emotional.notes ≠ "" then 1 else 0)
    + (if c.medication.notes ≠ "" then 1 else 0)
    + (if c.activity.notes ≠ "" then 1 else 0)

/-- Claim C9: on a week whose date keys are strictly ascending (as the
aggregator produces them, Monday through Sunday), the Detailed Notes
rows are exactly the per-check-in rows concatenated in stored date
order; each check-in contributes one row per non-empty note field, the
rows it contributes are a sublist of the fixed category-ordered
candidates (Emotional, Medication, Physical Activity), a check-in with
all three notes empty contributes zero rows, and one with only a
non-empty emotional note contributes exactly that one row. -/
theorem C9_theorem (wd : List (String × Checkin))
    (h : (wd.map Prod.fst).Pairwise (· < ·)) :
    notesRows wd = wd.flatMap (fun p => noteRowsFor p.1 p.2)
    ∧ (∀ d c, (noteRowsFor d c).length = notesCount c)
    ∧ (∀ d c, (noteRowsFor d c).Sublist
        [emoNoteRow d c, medNoteRow d c, actNoteRow d c])
    ∧ (∀ d c, c.emotional.notes = "" → c.medication.notes = "" →
        c.activity.notes = "" → noteRowsFor d c = [])
    ∧ (∀ d c, c.emotional.notes ≠ "" → c.medication.notes = "" →
        c.activity.notes = "" → noteRowsFor d c = [emoNoteRow d c]) := by
  refine ⟨?_, ?_, ?_, ?_, ?_⟩
  · unfold notesRows
    rw [sortKeys_of_pairwise _ h]
    exact flatMap_lookup_eq wd wd
      (lookupDate_self wd (h.imp (fun hlt => ne_of_lt hlt)))
  · intro d c
    unfold noteRowsFor notesCount
    split <;> split <;> split <;> simp
  · intro d c
    unfold noteRowsFor
    have hA : (if c.emotional.notes ≠ "" then [emoNoteRow d c] else []).Sublist
        [emoNoteRow d c] := by
      split
      · exact List.Sublist.refl _
      · exact List.nil_sublist _
    have hB : (if c.medication.notes ≠ "" then [medNoteRow d c] else []).Sublist
        [medNoteRow d c] := by
      split
      · exact List.Sublist.refl _
      · exact List.nil_sublist _
    have hC : (if c.activity.notes ≠ "" then [actNoteRow d c] else []).Sublist
        [actNoteRow d c] := by
      split
      · exact List.Sublist.refl _
      · exact List.nil_sublist _
    simpa using hA.append (hB.append hC)
  · intro d c h1 h2 h3
    simp [noteRowsFor, h1, h2, h3]
  · intro d c h1 h2 h3
    simp [noteRowsFor, h1, h2, h3]

/-- Claim C9, witness: a two-day week — one check-in with all notes
empty, one with only an emotional note — yields exactly one notes
row. -/
theorem C9_witness :
    notesRows [("2024-01-29", ⟨"09:00", ⟨5, ""⟩, ⟨5, ""⟩, ⟨4, ""⟩⟩),
               ("2024-01-31", ⟨"10:00", ⟨2, "anxious"⟩, ⟨0, ""⟩, ⟨3, ""⟩⟩)]
      = [("2024-01-29", (⟨"09:00", ⟨5, ""⟩, ⟨5, ""⟩, ⟨4, ""⟩⟩ : Checkin)),
         ("2024-01-31", ⟨"10:00", ⟨2, "anxious"⟩, ⟨0, ""⟩, ⟨3, ""⟩⟩)].flatMap
          (fun p => noteRowsFor p.1 p.2)
    ∧ noteRowsFor "2024-01-29" ⟨"09:00", ⟨5, ""⟩, ⟨5, ""⟩, ⟨4, ""⟩⟩ = []
    ∧ noteRowsFor "2024-01-31" ⟨"10:00", ⟨2, "anxious"⟩, ⟨0, ""⟩, ⟨3, ""⟩⟩
        = [emoNoteRow "2024-01-31" ⟨"10:00", ⟨2, "anxious"⟩, ⟨0, ""⟩, ⟨3, ""⟩⟩] := by
  have h := C9_theorem
    [("2024-01-29", ⟨"09:00", ⟨5, ""⟩, ⟨5, ""⟩, ⟨4, ""⟩⟩),
     ("2024-01-31", ⟨"10:00", ⟨2, "anxious"⟩, ⟨0, ""⟩, ⟨3, ""⟩⟩)] (by
      simp only [List.map_cons, List.map_nil, List.pairwise_cons]
      refine ⟨?_, by simp, List.Pairwise.nil⟩
      intro y hy
      simp only [List.mem_singleton, List.mem_cons, List.not_mem_nil, or_false] at hy
      subst hy
      rw [String.lt_iff_toList_lt]
      decide)
  refine ⟨h.1, ?_, ?_⟩
  · exact h.2.2.2.1 "2024-01-29" ⟨"09:00", ⟨5, ""⟩, ⟨5, ""⟩, ⟨4, ""⟩⟩ rfl rfl rfl
  · exact h.2.2.2.2 "2024-01-31" ⟨"10:00", ⟨2, "anxious"⟩, ⟨0, ""⟩, ⟨3, ""⟩⟩
      (by decide) rfl rfl

end Therapy
